import Mathlib

/-!
Shallow embedding of `src/core/src/document_renderer.rs` (fakebeat).

The file embeds the generator registry and the value-generation closures of
`DocumentRenderer`. Randomness is made explicit: every call of
`rng.gen_range(0..n)` is modelled by a draw parameter constrained to `[0, n)`
in the theorems, and `rng.gen_range` on an empty range (`n = 0`, or a
negative upper bound for signed ranges) is the fatal outcome, as in `rand`,
where it panics. Fallible template-function results (`tera::Result<Value>`)
become the `Outcome` type: `ok` for `Ok(value)`, `error` for `Err(..)`, and
`fatal` for a panic (an `unwrap` on `None`, or an empty random range).
-/

namespace Fakebeat

/-- Subset of `serde_json::Value` / `tera::Value` that generator arguments use:
strings, integer numbers, and a catch-all `null` for every other value kind. -/
inductive Value where
  | str (s : String)
  | int (n : Int)
  | null
deriving DecidableEq, Repr

/-- `serde_json::Value::as_u64`: `Some` exactly on integer numbers in `u64` range. -/
def Value.asU64 : Value → Option Nat
  | .int n => if 0 ≤ n ∧ n < 2 ^ 64 then some n.toNat else none
  | _ => none

/-- `serde_json::Value::as_str`: `Some` exactly on strings. -/
def Value.asStr : Value → Option String
  | .str s => some s
  | _ => none

/-- `serde_json::from_value::<i64>`: succeeds exactly on integer numbers in
`i64` range (serde does not coerce strings or other kinds to integers). -/
def fromValueI64 : Value → Option Int
  | .int n => if -(2 ^ 63) ≤ n ∧ n < 2 ^ 63 then some n else none
  | _ => none

/-- The `HashMap<String, Value>` of parsed call-site arguments, as an
association list; `get` is lookup by exact key. -/
abbrev Args := List (String × Value)

/-- `HashMap::get`. -/
def Args.get (a : Args) (k : String) : Option Value :=
  (List.find? (fun p => p.1 == k) a).map (fun p => p.2)

/-- Result of one generator invocation: `Ok(value)` (all generators produce
string values), `Err(..)`, or a panic (`unwrap` failure / empty random range). -/
inductive Outcome where
  | ok (v : String)
  | error
  | fatal
deriving DecidableEq, Repr

/-! ### Timestamp formatting (`FORMAT_ISO = "%FT%T%z"`)

`chrono`'s `%FT%T%z` on a `DateTime<Utc>` prints
`YYYY-MM-DDTHH:MM:SS+0000`. Time is modelled as epoch seconds (`Int`); the
civil-date conversion below is the standard proleptic-Gregorian
days-to-civil algorithm that `chrono` implements. Years `0..9999` print as
four zero-padded digits; `%Y` gives every other year an explicit sign and
as many digits as needed (`write!("{:+05}", year)`), e.g. `-0439`. -/

/-- Last decimal digit of `n`, as a character. -/
def digitCh (n : Nat) : Char := Char.ofNat (48 + n % 10)

/-- Two-digit zero-padded field (`%m`, `%d`, `%H`, `%M`, `%S`). -/
def pad2 (n : Nat) : List Char := [digitCh (n / 10), digitCh n]

/-- Four-digit zero-padded field (`%Y` for years `0..9999`). -/
def pad4 (n : Nat) : List Char :=
  [digitCh (n / 1000), digitCh (n / 100), digitCh (n / 10), digitCh n]

/-- Gregorian civil date `(year, month, day)` of an epoch day number. -/
def civilFromDays (z : Int) : Int × Nat × Nat :=
  let zs := z + 719468
  let era : Int := zs / 146097
  let doe : Nat := (zs % 146097).toNat
  let yoe : Nat := (doe - doe / 1460 + doe / 36524 - doe / 146096) / 365
  let y : Int := (yoe : Int) + era * 400
  let doy : Nat := doe - (365 * yoe + yoe / 4 - yoe / 100)
  let mp : Nat := (5 * doy + 2) / 153
  let d : Nat := doy - (153 * mp + 2) / 5 + 1
  let m : Nat := if mp < 10 then mp + 3 else mp - 9
  (if m ≤ 2 then y + 1 else y, m, d)

/-- Decimal digits of `n`, zero-padded on the left to at least `width`. -/
def natPad (width : Nat) (n : Nat) : List Char :=
  let ds := Nat.toDigits 10 n
  List.replicate (width - ds.length) '0' ++ ds

/-- chrono's `%Y`: years `0..9999` print as exactly four zero-padded
digits; any other year gets an explicit sign followed by its digits,
zero-padded to four (`write!("{:+05}", year)`: `-439 ↦ "-0439"`,
`10000 ↦ "+10000"`). -/
def formatYear (y : Int) : List Char :=
  if 0 ≤ y ∧ y < 10000 then pad4 y.toNat
  else if y < 0 then '-' :: natPad 4 (-y).toNat
  else '+' :: natPad 4 y.toNat

/-- `dt.format(FORMAT_ISO).to_string()` for a UTC time given in epoch
seconds: `YYYY-MM-DDTHH:MM:SS+0000` (with a signed year field outside
`0..9999`). -/
def formatIso (t : Int) : String :=
  let sod : Nat := (t % 86400).toNat
  let c := civilFromDays (t / 86400)
  ⟨formatYear c.1 ++ '-' :: pad2 c.2.1 ++ '-' :: pad2 c.2.2 ++
    'T' :: pad2 (sod / 3600) ++ ':' :: pad2 (sod / 60 % 60) ++
    ':' :: pad2 (sod % 60) ++ ['+', '0', '0', '0', '0']⟩

/-- Recognizer for the `%FT%T%z` shape: 4 year digits, `-`, 2 month digits,
`-`, 2 day digits, `T`, 2:2:2 time digits with `:` separators, and a
`±HHMM` timezone offset. -/
def isIsoTimestamp (s : String) : Bool :=
  match s.data with
  | [y1, y2, y3, y4, a, m1, m2, b, d1, d2, c, h1, h2, e, n1, n2, f, s1, s2,
      z1, z2, z3, z4, z5] =>
    y1.isDigit && y2.isDigit && y3.isDigit && y4.isDigit && a == '-' &&
    m1.isDigit && m2.isDigit && b == '-' && d1.isDigit && d2.isDigit &&
    c == 'T' && h1.isDigit && h2.isDigit && e == ':' && n1.isDigit &&
    n2.isDigit && f == ':' && s1.isDigit && s2.isDigit &&
    (z1 == '+' || z1 == '-') && z2.isDigit && z3.isDigit && z4.isDigit &&
    z5.isDigit
  | _ => false

/-- Tail of Rust's `str::split('|')`: accumulate the current piece until a
`'|'` separator, emitting the piece (and a final piece at the end). -/
def splitPipeAux : List Char → List Char → List String
  | [], acc => [⟨acc.reverse⟩]
  | c :: rest, acc =>
    if c = '|' then ⟨acc.reverse⟩ :: splitPipeAux rest []
    else splitPipeAux rest (c :: acc)

/-- Rust's `options.split("|").collect::<Vec<&str>>()`: `n` separators give
`n + 1` pieces, so the result is never empty (`""` splits to `[""]`). -/
def splitPipe (s : String) : List String :=
  splitPipeAux s.data []

/-! ### The generator closures -/

/-- `chrono::Duration::days` panics (`"Duration::days out of bounds"`) when
the day count exceeds `i64::MAX` milliseconds: `|days| > 106751991167`. -/
def MAX_DURATION_DAYS : Int := 106751991167

/-- Epoch seconds of chrono's `NaiveDateTime::MIN`
(`-262144-01-01T00:00:00`; chrono years span `i32::MIN >> 13` to
`i32::MAX >> 13`, i.e. `-262144..=262143`). -/
def MIN_DATETIME_SECS : Int := -8334632937600

/-- Last whole epoch second of chrono's `NaiveDateTime::MAX`
(`262143-12-31T23:59:59.999999999`). -/
def MAX_DATETIME_SECS : Int := 8210298412799

/-- The `date` generator closure. `now` is `Utc::now()` in epoch seconds and
`draw` is the value `rng.gen_range(0..sub_rnd_days)` produced (meaningful
only when `0 ≤ draw < sub_rnd_days`; the range being empty, i.e.
`sub_rnd_days ≤ 0`, is the panic of `gen_range`). After the draw,
`Duration::days(draw)` panics beyond `MAX_DURATION_DAYS`, and the
`DateTime<Utc> - Duration` subtraction is `checked_sub_signed(..).expect(..)`,
panicking when the result leaves chrono's representable range. -/
def dateGen (args : Args) (now : Int) (draw : Int) : Outcome :=
  match args.get "sub_rnd_days" with
  | some v =>
    match fromValueI64 v with
    | some subRndDays =>
      if subRndDays ≤ 0 then .fatal
      else if draw < -MAX_DURATION_DAYS ∨ MAX_DURATION_DAYS < draw then
        .fatal
      else if now - draw * 86400 < MIN_DATETIME_SECS ∨
          MAX_DATETIME_SECS < now - draw * 86400 then
        .fatal
      else .ok (formatIso (now - draw * 86400))
    | none => .error
  | none => .ok (formatIso now)

/-- The `now` generator closure. -/
def nowGen (_args : Args) (now : Int) : Outcome :=
  .ok (formatIso now)

/-- `rand::distributions::Alphanumeric`'s character set, in its order. -/
def ALPHANUMERIC_CHARSET : List Char :=
  "ABCDEFGHIJKLMNOPQRSTUVWXYZabcdefghijklmnopqrstuvwxyz0123456789".data

/-- One sample of `Alphanumeric`: the character at index `d` (a uniform
draw in `[0, 62)`). -/
def sampleAlphanumeric (d : Nat) : Char := ALPHANUMERIC_CHARSET.getD d 'A'

/-- `thread_rng().sample_iter(&Alphanumeric).take(16).map(char::from).collect()`:
the `i`-th sample of the infinite iterator is `draws i`. -/
def hashString (draws : Nat → Nat) : String :=
  ⟨((List.range 16).map draws).map sampleAlphanumeric⟩

/-- The `hash` generator closure. -/
def hashGen (_args : Args) (draws : Nat → Nat) : Outcome :=
  .ok (hashString draws)

/-- The `random_value` generator closure. `SliceRandom::choose` is modelled
by indexing with the uniform draw in `[0, len)`; it yields `None` exactly
when the slice is empty (Rust's `split` never produces an empty vector, so
that branch is dead code, but it is in the source and kept here). -/
def randomValueGen (args : Args) (draw : Nat) : Outcome :=
  match args.get "options" with
  | some value =>
    match value.asStr with
    | some options =>
      let opts := splitPipe options
      match opts.get? draw with
      | some randomValue => .ok randomValue
      | none => .ok ""
    | none => .ok ""
  | none => .ok ""

/-- The `chance` generator closure. Each `.unwrap()` on a missing/mistyped
argument is the `fatal` outcome, as is `gen_range(0..range)` with
`range = 0` and `options.get(i).unwrap()` on a too-short vector. `draw` is
the value of `rng.gen_range(0..range)` (meaningful when `draw < range`). -/
def chanceGen (args : Args) (draw : Nat) : Outcome :=
  match args.get "range" with
  | none => .fatal
  | some rangeVal =>
    match rangeVal.asU64 with
    | none => .fatal
    | some range =>
      match args.get "options" with
      | none => .fatal
      | some optionsVal =>
        match optionsVal.asStr with
        | none => .fatal
        | some optionsStr =>
          if range = 0 then .fatal
          else
            let opts := splitPipe optionsStr
            if draw = 0 then
              match opts.get? 0 with
              | some o => .ok o
              | none => .fatal
            else
              match opts.get? 1 with
              | some o => .ok o
              | none => .fatal

/-- The `randomint` generator closure. A missing `range` argument defaults to
the *string* `"0"` (`unwrap_or(&Value::String("0".to_owned()))`), on which
`as_u64()` is `None` and the `.unwrap()` panics; `gen_range(0..0)` also
panics. `draw` is the value of `rng.gen_range(0..range)`. -/
def randomintGen (args : Args) (draw : Nat) : Outcome :=
  match ((args.get "range").getD (Value.str "0")).asU64 with
  | none => .fatal
  | some range =>
    if range = 0 then .fatal
    else .ok (toString draw)

/-! ### The renderer and its registry -/

/-- `DocumentRenderer`: the `generators` name-to-description map (as an
association list with `HashMap::insert` semantics) and the Tera engine,
of which only the set of registered function names is relevant here. -/
structure DocumentRenderer where
  generators : List (String × String)
  teraFunctions : List String
deriving DecidableEq, Repr

/-- `HashMap::insert`: replaces any existing binding of the key. -/
def hmInsert (m : List (String × String)) (k v : String) :
    List (String × String) :=
  m.filter (fun p => p.1 != k) ++ [(k, v)]

/-- `DocumentRenderer::register_generator`: registers the function with Tera
and records the name-to-description entry. -/
def registerGenerator (r : DocumentRenderer) (name desc : String) :
    DocumentRenderer :=
  { generators := hmInsert r.generators name desc,
    teraFunctions := name :: r.teraFunctions }

/-- Every `register_generator` call of
`DocumentRenderer::register_generators`, in source order: the six bespoke
generators, then the `register_faker_generators!` table (whose description is
`stringify!` of the faker path). -/
def generatorTable : List (String × String) :=
  [("date", "Generates random date. Optional negative offset can be passed to specify the amount of days to be subtracted, via 'sub_rnd_days' param."),
   ("now", "Current date"),
   ("hash", "16-character long alpha-num hash"),
   ("random_value", "Get random value from set configured with the 'options' parameter, eg. options='a|b|c'"),
   ("chance", "Roll a dice within range, if 0 is rolled then return first option, else 2nd"),
   ("randomint", "Roll a dice within a range"),
   ("digit", "fake::faker::number::en::Digit"),
   ("username", "fake::faker::internet::en::Username"),
   ("domainsuffix", "fake::faker::internet::en::DomainSuffix"),
   ("ipv4", "fake::faker::internet::en::IPv4"),
   ("ipv6", "fake::faker::internet::en::IPv6"),
   ("ip", "fake::faker::internet::en::IP"),
   ("macaddress", "fake::faker::internet::en::MACAddress"),
   ("freeemail", "fake::faker::internet::en::FreeEmail"),
   ("safeemail", "fake::faker::internet::en::SafeEmail"),
   ("freeemailprovider", "fake::faker::internet::en::FreeEmailProvider"),
   ("word", "fake::faker::lorem::en::Word"),
   ("firstname", "fake::faker::name::en::FirstName"),
   ("lastname", "fake::faker::name::en::LastName"),
   ("title", "fake::faker::name::en::Title"),
   ("suffix", "fake::faker::name::en::Suffix"),
   ("name", "fake::faker::name::en::Name"),
   ("namewithtitle", "fake::faker::name::en::NameWithTitle"),
   ("filepath", "fake::faker::filesystem::en::FilePath"),
   ("filename", "fake::faker::filesystem::en::FileName"),
   ("fileextension", "fake::faker::filesystem::en::FileExtension"),
   ("dirpath", "fake::faker::filesystem::en::DirPath"),
   ("companysuffix", "fake::faker::company::en::CompanySuffix"),
   ("companyname", "fake::faker::company::en::CompanyName"),
   ("buzzword", "fake::faker::company::en::Buzzword"),
   ("buzzwordmiddle", "fake::faker::company::en::BuzzwordMiddle"),
   ("buzzwordtail", "fake::faker::company::en::BuzzwordTail"),
   ("catchphase", "fake::faker::company::en::CatchPhase"),
   ("bsverb", "fake::faker::company::en::BsVerb"),
   ("bsadj", "fake::faker::company::en::BsAdj"),
   ("bsnoun", "fake::faker::company::en::BsNoun"),
   ("bs", "fake::faker::company::en::Bs"),
   ("profession", "fake::faker::company::en::Profession"),
   ("industry", "fake::faker::company::en::Industry"),
   ("cityprefix", "fake::faker::address::en::CityPrefix"),
   ("citysuffix", "fake::faker::address::en::CitySuffix"),
   ("cityname", "fake::faker::address::en::CityName"),
   ("countryname", "fake::faker::address::en::CountryName"),
   ("countrycode", "fake::faker::address::en::CountryCode"),
   ("streetsuffix", "fake::faker::address::en::StreetSuffix"),
   ("streetname", "fake::faker::address::en::StreetName"),
   ("timezone", "fake::faker::address::en::TimeZone"),
   ("statename", "fake::faker::address::en::StateName"),
   ("stateabbr", "fake::faker::address::en::StateAbbr"),
   ("secondaryaddresstype", "fake::faker::address::en::SecondaryAddressType"),
   ("secondaryaddress", "fake::faker::address::en::SecondaryAddress"),
   ("zipcode", "fake::faker::address::en::ZipCode"),
   ("postcode", "fake::faker::address::en::PostCode"),
   ("buildingnumber", "fake::faker::address::en::BuildingNumber"),
   ("latitude", "fake::faker::address::en::Latitude"),
   ("longitude", "fake::faker::address::en::Longitude")]

/-- `DocumentRenderer::register_generators`. -/
def registerGenerators (r : DocumentRenderer) : DocumentRenderer :=
  generatorTable.foldl (fun acc p => registerGenerator acc p.1 p.2) r

/-- `DocumentRenderer::new`. -/
def DocumentRenderer.new : DocumentRenderer :=
  { generators := [], teraFunctions := [] }

/-- `DocumentRendererFactory::create_renderer`. -/
def createRenderer : DocumentRenderer :=
  registerGenerators DocumentRenderer.new

/-- `DocumentRenderer::get_generators` (`self.generators.clone()`): the
`&self` receiver is made explicit by returning the snapshot together with
the renderer state after the call. -/
def getGenerators (r : DocumentRenderer) :
    List (String × String) × DocumentRenderer :=
  (r.generators, r)

/-- Key lookup in a snapshot. -/
def hmContains (m : List (String × String)) (k : String) : Bool :=
  m.any (fun p => p.1 == k)

/-- The generator names the spec requires `list_generators` to expose: the
six bespoke generators and every declared fake-data category. -/
def requiredNames : List String :=
  ["date", "now", "hash", "random_value", "chance", "randomint",
   "digit", "username", "domainsuffix", "ipv4", "ipv6", "ip", "macaddress",
   "freeemail", "safeemail", "freeemailprovider", "word", "firstname",
   "lastname", "title", "suffix", "name", "namewithtitle", "filepath",
   "filename", "fileextension", "dirpath", "companysuffix", "companyname",
   "buzzword", "buzzwordmiddle", "buzzwordtail", "catchphase", "bsverb",
   "bsadj", "bsnoun", "bs", "profession", "industry", "cityprefix",
   "citysuffix", "cityname", "countryname", "countrycode", "streetsuffix",
   "streetname", "timezone", "statename", "stateabbr",
   "secondaryaddresstype", "secondaryaddress", "zipcode", "postcode",
   "buildingnumber", "latitude", "longitude"]

/-! ## Helper lemmas -/

/-- Every character `digitCh` produces is a decimal digit. -/
theorem digitCh_isDigit (n : Nat) : (digitCh n).isDigit = true := by
  have h : n % 10 < 10 := Nat.mod_lt _ (by omega)
  unfold digitCh
  interval_cases h : n % 10 <;> decide

/-- Epoch days `-719528..2932896` (midnights of `0000-01-01` through
`9999-12-31`) have civil years in `0..9999`. -/
theorem civil_year_window (z : Int) (hz0 : -719528 ≤ z) (hz1 : z ≤ 2932896) :
    0 ≤ (civilFromDays z).1 ∧ (civilFromDays z).1 < 10000 := by
  unfold civilFromDays
  simp only
  set zs := z + 719468 with hzs
  set era := zs / 146097 with hera
  set doe := (zs % 146097).toNat with hdoe
  set yoe := (doe - doe / 1460 + doe / 36524 - doe / 146096) / 365 with hyoe
  set doy := doe - (365 * yoe + yoe / 4 - yoe / 100) with hdoy
  set mp := (5 * doy + 2) / 153 with hmp
  have hera1 : -1 ≤ era ∧ era ≤ 24 := by omega
  have hdoe1 : doe ≤ 146096 := by omega
  have hyoe1 : yoe ≤ 399 := by omega
  rcases Int.lt_or_le era 0 with he | he
  · have he1 : era = -1 := by omega
    have hd : 146037 ≤ doe := by omega
    have hy : yoe = 399 := by omega
    have hdy : 306 ≤ doy := by omega
    have hdy2 : doy ≤ 365 := by omega
    have hm : 10 ≤ mp := by omega
    have hm2 : mp ≤ 11 := by omega
    split_ifs <;> omega
  · rcases Int.lt_or_le era 24 with he2 | he2
    · split_ifs <;> omega
    · have he3 : era = 24 := by omega
      have hd : doe ≤ 146036 := by omega
      rcases Nat.lt_or_ge yoe 399 with hy | hy
      · split_ifs <;> omega
      · have hy399 : yoe = 399 := by omega
        have hdy : doy ≤ 305 := by omega
        have hm : mp ≤ 9 := by omega
        split_ifs <;> omega

/-- Within years `0..9999` (epoch seconds in
`[-62167219200, 253402300800)`), `formatIso` produces a string of the
strict `%FT%T%z` shape with a four-digit unsigned year. -/
theorem isIso_formatIso_window (t : Int)
    (h0 : -62167219200 ≤ t) (h1 : t < 253402300800) :
    isIsoTimestamp (formatIso t) = true := by
  have hz := civil_year_window (t / 86400) (by omega) (by omega)
  have hfy : formatYear (civilFromDays (t / 86400)).1 =
      pad4 (civilFromDays (t / 86400)).1.toNat := by
    unfold formatYear
    rw [if_pos hz]
  simp [formatIso, hfy, isIsoTimestamp, pad4, pad2, digitCh_isDigit]

/-- `from_value::<i64>` succeeds on an in-range integer number. -/
theorem fromValueI64_int (n : Int) (h0 : -(2 ^ 63) ≤ n) (h1 : n < 2 ^ 63) :
    fromValueI64 (Value.int n) = some n := by
  simp only [fromValueI64]
  rw [if_pos ⟨h0, h1⟩]

/-! ## The claims -/

/-- C1: for every `chance` call whose `range` argument is a positive
integer and whose `options` argument is a string splitting on `|` into at
least two elements, the uniform draw in `[0, range)` selects the first
pipe-delimited option exactly when it is `0`, and the second option for
every nonzero draw. -/
theorem chanceGen_branch_on_zero_draw (args : Args) (draw n : Nat)
    (rv ov : Value) (s : String)
    (h1 : args.get "range" = some rv) (h2 : rv.asU64 = some n) (h3 : 0 < n)
    (h4 : args.get "options" = some ov) (h5 : ov.asStr = some s)
    (h6 : 2 ≤ (splitPipe s).length) (h7 : draw < n) :
    chanceGen args draw =
      .ok (if draw = 0 then (splitPipe s).getD 0 ""
           else (splitPipe s).getD 1 "") := by
  simp only [chanceGen, h1, h2, h4, h5]
  rw [if_neg (by omega)]
  rcases hsp : splitPipe s with _ | ⟨a, l2⟩
  · rw [hsp] at h6; simp at h6
  rcases l2 with _ | ⟨b, t⟩
  · rw [hsp] at h6; simp at h6
  by_cases hd : draw = 0
  · simp [hd]
  · simp [hd]

/-- Witness for C1: `chance(range=5, options="x|y")` with draw `0` yields
`"x"` and with draw `3` yields `"y"`. -/
theorem chanceGen_branch_on_zero_draw_witness :
    chanceGen [("range", Value.int 5), ("options", Value.str "x|y")] 0 =
      .ok "x" ∧
    chanceGen [("range", Value.int 5), ("options", Value.str "x|y")] 3 =
      .ok "y" := by
  constructor
  · rw [chanceGen_branch_on_zero_draw
      [("range", Value.int 5), ("options", Value.str "x|y")] 0 5
      (Value.int 5) (Value.str "x|y") "x|y" rfl (by decide) (by decide) rfl
      (by decide) (by decide) (by decide)]
    decide
  · rw [chanceGen_branch_on_zero_draw
      [("range", Value.int 5), ("options", Value.str "x|y")] 3 5
      (Value.int 5) (Value.str "x|y") "x|y" rfl (by decide) (by decide) rfl
      (by decide) (by decide) (by decide)]
    decide

/-- Counterexample to C2 as stated: at `sub_rnd_days = 1000000` with
`now = 1760000000` and the admissible draw `900000`, the program returns
`Ok("-0439-08-28T08:53:20+0000")` — chrono's `%Y` emits a signed year for
years outside `0..9999`, so the result is not of the claimed 4-digit-year
`%FT%T%z` shape (and still larger draws would panic in
`Duration::days` / the `DateTime` subtraction instead of returning). -/
theorem dateGen_c2_signed_year_counterexample :
    (0 : Int) ≤ 900000 ∧ (900000 : Int) < 1000000 ∧
    dateGen [("sub_rnd_days", Value.int 1000000)] 1760000000 900000 =
      .ok (formatIso (1760000000 - 900000 * 86400)) ∧
    formatIso (1760000000 - 900000 * 86400) =
      "-0439-08-28T08:53:20+0000" ∧
    isIsoTimestamp (formatIso (1760000000 - 900000 * 86400)) = false := by
  refine ⟨by decide, by decide, by decide, by decide, by decide⟩

/-- C2 (amended): `date(sub_rnd_days=N)` with `N > 0` and a uniform draw
in `[0, N)` returns the timestamp `now - draw` days, which lies between
`now - N` days and `now`, and — provided the whole window
`[now - N days, now]` stays within years `0000..9999`, as every real clock
value of `now` and day offset up to hundreds of millennia does — is
formatted with the `%FT%T%z` ISO pattern (4-digit year, 2-digit
month/day/hour/minute/second, timezone offset). Outside that window
chrono prints a signed year or panics, see the counterexample. -/
theorem dateGen_sub_rnd_days_range_and_format (args : Args)
    (now draw n : Int)
    (hget : args.get "sub_rnd_days" = some (.int n))
    (hn : 0 < n) (hn2 : n < 2 ^ 63)
    (hd0 : 0 ≤ draw) (hd1 : draw < n)
    (hw0 : -62167219200 ≤ now - n * 86400) (hw1 : now < 253402300800) :
    dateGen args now draw = .ok (formatIso (now - draw * 86400)) ∧
    now - n * 86400 ≤ now - draw * 86400 ∧
    now - draw * 86400 ≤ now ∧
    isIsoTimestamp (formatIso (now - draw * 86400)) = true := by
  refine ⟨?_, by omega, by omega,
    isIso_formatIso_window _ (by omega) (by omega)⟩
  simp only [dateGen, hget, fromValueI64_int n (by omega) hn2]
  rw [if_neg (by omega)]
  rw [if_neg (by simp only [MAX_DURATION_DAYS]; omega)]
  rw [if_neg (by simp only [MIN_DATETIME_SECS, MAX_DATETIME_SECS]; omega)]

/-- Witness for C2 at `sub_rnd_days=5`, `now = 1760000000`, draw `3`. -/
theorem dateGen_sub_rnd_days_range_and_format_witness :
    dateGen [("sub_rnd_days", Value.int 5)] 1760000000 3 =
      .ok (formatIso (1760000000 - 3 * 86400)) ∧
    (1760000000 : Int) - 5 * 86400 ≤ 1760000000 - 3 * 86400 ∧
    (1760000000 : Int) - 3 * 86400 ≤ 1760000000 ∧
    isIsoTimestamp (formatIso (1760000000 - 3 * 86400)) = true :=
  dateGen_sub_rnd_days_range_and_format [("sub_rnd_days", Value.int 5)]
    1760000000 3 5 rfl (by decide) (by decide) (by decide) (by decide)
    (by decide) (by decide)

/-- C3: every `hash` invocation returns a string of exactly 16 characters,
each the uniform alphanumeric sample `draws i` of `[A-Za-z0-9]`. -/
theorem hashGen_length_and_alphanumeric (args : Args) (draws : Nat → Nat) :
    hashGen args draws = .ok (hashString draws) ∧
    (hashString draws).length = 16 ∧
    ((∀ i, i < 16 → draws i < 62) →
      ∀ c ∈ (hashString draws).data, c ∈ ALPHANUMERIC_CHARSET) := by
  refine ⟨rfl, by simp [hashString], ?_⟩
  intro hdr c hc
  simp only [hashString, List.mem_map] at hc
  obtain ⟨d, hd, hcd⟩ := hc
  obtain ⟨i, hi, hdi⟩ := hd
  simp only [List.mem_range] at hi
  subst hcd hdi
  have hlt : draws i < ALPHANUMERIC_CHARSET.length := by
    have := hdr i hi
    simp [ALPHANUMERIC_CHARSET]
    omega
  rw [sampleAlphanumeric, List.getD_eq_getElem _ _ hlt]
  exact List.getElem_mem _

/-- Witness for C3 with the identity draw sequence. -/
theorem hashGen_length_and_alphanumeric_witness :
    hashGen [] (fun i => i) = .ok (hashString (fun i => i)) ∧
    (hashString (fun i => i)).length = 16 ∧
    (∀ c ∈ (hashString (fun i => i)).data, c ∈ ALPHANUMERIC_CHARSET) := by
  obtain ⟨h1, h2, h3⟩ := hashGen_length_and_alphanumeric [] (fun i => i)
  exact ⟨h1, h2, h3 (fun i hi => by omega)⟩

/-- C4: `random_value` never fails: with `options` absent or not a string
it returns the empty string (so in particular whenever the split list were
empty, vacuously, it would return the empty string); with `options` a
string it returns the element of the `|`-split selected by the uniform
draw; and on every argument mapping it returns `Ok` of some string. -/
theorem randomValueGen_total_spec :
    (∀ (args : Args) (draw : Nat),
      (args.get "options" = none ∨
        ∃ v, args.get "options" = some v ∧ v.asStr = none) →
      randomValueGen args draw = .ok "") ∧
    (∀ (args : Args) (draw : Nat) (v : Value) (s : String),
      args.get "options" = some v → v.asStr = some s →
      draw < (splitPipe s).length →
      randomValueGen args draw = .ok ((splitPipe s).getD draw "") ∧
        (splitPipe s).getD draw "" ∈ splitPipe s) ∧
    (∀ (args : Args) (draw : Nat), ∃ t, randomValueGen args draw = .ok t) := by
  refine ⟨?_, ?_, ?_⟩
  · rintro args draw (h | ⟨v, hv, hs⟩)
    · simp [randomValueGen, h]
    · simp [randomValueGen, hv, hs]
  · intro args draw v s hv hs hd
    have hget : (splitPipe s).get? draw =
        some ((splitPipe s).getD draw "") := by
      rw [List.get?_eq_getElem?, List.getD_eq_getElem?_getD]
      rw [List.getElem?_eq_getElem hd]
      simp
    constructor
    · simp only [randomValueGen, hv, hs, hget]
    · rw [List.getD_eq_getElem _ _ hd]
      exact List.getElem_mem _
  · intro args draw
    simp only [randomValueGen]
    rcases args.get "options" with _ | v
    · exact ⟨"", rfl⟩
    · rcases hv : v.asStr with _ | s
      · simp only [hv]; exact ⟨"", rfl⟩
      · simp only [hv]
        rcases hg : (splitPipe s).get? draw with _ | r
        · simp only [hg]; exact ⟨"", rfl⟩
        · simp only [hg]; exact ⟨r, rfl⟩

/-- Witness for C4: absent `options`, non-string `options`, and a
three-element split with draw `1`. -/
theorem randomValueGen_total_spec_witness :
    randomValueGen [] 0 = .ok "" ∧
    randomValueGen [("options", Value.int 3)] 0 = .ok "" ∧
    randomValueGen [("options", Value.str "a|b|c")] 1 = .ok "b" := by
  refine ⟨randomValueGen_total_spec.1 [] 0 (Or.inl rfl),
    randomValueGen_total_spec.1 [("options", Value.int 3)] 0
      (Or.inr ⟨Value.int 3, rfl, rfl⟩), ?_⟩
  have h := randomValueGen_total_spec.2.1 [("options", Value.str "a|b|c")] 1
    (Value.str "a|b|c") "a|b|c" rfl rfl (by decide)
  rw [h.1]
  decide

/-- C5: `randomint` with a positive integer `range` argument `n` and a
uniform draw in `[0, n)` returns the decimal string of the draw. -/
theorem randomintGen_in_range (args : Args) (draw n : Nat) (rv : Value)
    (h1 : args.get "range" = some rv) (h2 : rv.asU64 = some n) (h3 : 0 < n)
    (h4 : draw < n) :
    randomintGen args draw = .ok (toString draw) ∧ draw < n := by
  refine ⟨?_, h4⟩
  simp only [randomintGen, h1, Option.getD_some, h2]
  rw [if_neg (by omega)]

/-- Witness for C5: `randomint(range=10)` with draw `7` returns `"7"`. -/
theorem randomintGen_in_range_witness :
    randomintGen [("range", Value.int 10)] 7 = .ok "7" ∧ 7 < 10 :=
  randomintGen_in_range [("range", Value.int 10)] 7 10 (Value.int 10)
    rfl (by decide) (by decide) (by decide)

/-- C6: `date` with a `sub_rnd_days` argument that does not parse as an
integer returns the `Err` result — not a value and not a panic. -/
theorem dateGen_unparseable_arg_error (args : Args) (now draw : Int)
    (v : Value)
    (h1 : args.get "sub_rnd_days" = some v) (h2 : fromValueI64 v = none) :
    dateGen args now draw = .error := by
  simp only [dateGen, h1, h2]

/-- Witness for C6 at `sub_rnd_days="tomorrow"`. -/
theorem dateGen_unparseable_arg_error_witness :
    dateGen [("sub_rnd_days", Value.str "tomorrow")] 0 0 = .error :=
  dateGen_unparseable_arg_error [("sub_rnd_days", Value.str "tomorrow")]
    0 0 (Value.str "tomorrow") rfl rfl

/-- C7: `chance` with `range` missing or not a `u64` number panics; with a
well-typed `range` but `options` missing or not a string it panics; and
`randomint` with `range` missing (the `"0"` string default) or not a `u64`
number panics — a fatal abort, never a typed error result. -/
theorem chance_randomint_unchecked_args_fatal :
    (∀ (args : Args) (draw : Nat),
      args.get "range" = none ∨
        (∃ v, args.get "range" = some v ∧ v.asU64 = none) →
      chanceGen args draw = .fatal) ∧
    (∀ (args : Args) (draw n : Nat) (rv : Value),
      args.get "range" = some rv → rv.asU64 = some n →
      (args.get "options" = none ∨
        (∃ w, args.get "options" = some w ∧ w.asStr = none)) →
      chanceGen args draw = .fatal) ∧
    (∀ (args : Args) (draw : Nat),
      args.get "range" = none ∨
        (∃ v, args.get "range" = some v ∧ v.asU64 = none) →
      randomintGen args draw = .fatal) := by
  refine ⟨?_, ?_, ?_⟩
  · rintro args draw (h | ⟨v, hv, hu⟩)
    · simp [chanceGen, h]
    · simp [chanceGen, hv, hu]
  · rintro args draw n rv h1 h2 (h | ⟨w, hw, hs⟩)
    · simp [chanceGen, h1, h2, h]
    · simp [chanceGen, h1, h2, hw, hs]
  · rintro args draw (h | ⟨v, hv, hu⟩)
    · simp [randomintGen, h, Value.asU64]
    · simp [randomintGen, hv, hu]

/-- Witness for C7: missing and string-typed `range` for `chance`, missing
`options` for `chance`, and missing and string-typed `range` for
`randomint`, all fatal. -/
theorem chance_randomint_unchecked_args_fatal_witness :
    chanceGen [] 0 = .fatal ∧
    chanceGen [("range", Value.str "5")] 0 = .fatal ∧
    chanceGen [("range", Value.int 5)] 0 = .fatal ∧
    randomintGen [] 0 = .fatal ∧
    randomintGen [("range", Value.str "ten")] 0 = .fatal :=
  ⟨chance_randomint_unchecked_args_fatal.1 [] 0 (Or.inl rfl),
   chance_randomint_unchecked_args_fatal.1 [("range", Value.str "5")] 0
     (Or.inr ⟨Value.str "5", rfl, rfl⟩),
   chance_randomint_unchecked_args_fatal.2.1 [("range", Value.int 5)] 0 5
     (Value.int 5) rfl (by decide) (Or.inl rfl),
   chance_randomint_unchecked_args_fatal.2.2 [] 0 (Or.inl rfl),
   chance_randomint_unchecked_args_fatal.2.2 [("range", Value.str "ten")] 0
     (Or.inr ⟨Value.str "ten", rfl, rfl⟩)⟩

/-- C8: `get_generators` returns a snapshot equal to the registry's
name-to-description mapping at the time of the call, and the renderer
state after the call is unchanged (the clone gives the caller a copy, not
a handle into the live registry). -/
theorem getGenerators_snapshot (r : DocumentRenderer) :
    (getGenerators r).1 = r.generators ∧ (getGenerators r).2 = r :=
  ⟨rfl, rfl⟩

/-- Witness for C8 at the freshly constructed renderer. -/
theorem getGenerators_snapshot_witness :
    (getGenerators createRenderer).1 = createRenderer.generators ∧
    (getGenerators createRenderer).2 = createRenderer :=
  getGenerators_snapshot createRenderer

set_option maxRecDepth 8000 in
/-- C9: after construction the registry is non-empty and its key set
contains `date`, `now`, `hash`, `random_value`, `chance`, `randomint`, and
every declared fake-data category generator name. -/
theorem listGenerators_contains_required :
    (getGenerators createRenderer).1 ≠ [] ∧
    ∀ n ∈ requiredNames, hmContains (getGenerators createRenderer).1 n = true := by
  constructor
  · decide
  · decide

/-- C10: `date` with `sub_rnd_days` parseable as an integer `N ≤ 0` is the
panic of `gen_range` over the empty range `[0, N)`: no timestamp and no
argument-type error is returned. -/
theorem dateGen_nonpositive_offset_fatal (args : Args) (now draw n : Int)
    (h1 : args.get "sub_rnd_days" = some (.int n))
    (h2 : -(2 ^ 63) ≤ n) (h3 : n ≤ 0) :
    dateGen args now draw = .fatal ∧
    (∀ s, dateGen args now draw ≠ .ok s) ∧
    dateGen args now draw ≠ .error := by
  have h : dateGen args now draw = .fatal := by
    simp only [dateGen, h1, fromValueI64_int n h2 (by omega)]
    rw [if_pos h3]
  exact ⟨h, fun s => by simp [h], by simp [h]⟩

/-- Witness for C10 at `sub_rnd_days=-3`. -/
theorem dateGen_nonpositive_offset_fatal_witness :
    dateGen [("sub_rnd_days", Value.int (-3))] 0 0 = .fatal ∧
    (∀ s, dateGen [("sub_rnd_days", Value.int (-3))] 0 0 ≠ .ok s) ∧
    dateGen [("sub_rnd_days", Value.int (-3))] 0 0 ≠ .error :=
  dateGen_nonpositive_offset_fatal [("sub_rnd_days", Value.int (-3))] 0 0
    (-3) rfl (by decide) (by decide)

end Fakebeat
